import Mathlib

/-!
Verification model of the eclipse-score `inc_mw_per` persistent key-value
store (C++ implementation).  The repository sources available here are the
unit tests (`tests/test_kvs.cpp`), the builder (`src/kvsbuilder.cpp`) and the
build files; the engine translation units (`kvs.cpp` / `kvs.hpp`) are not
part of the source snapshot, so the engine operations are modelled from the
specification, with the unit tests used as corroborating evidence of the
intended behaviour.  Machine integers are modelled as `Nat` / `Int` with
explicit range conditions; JSON numbers are modelled as exact rationals
(standing for the exact numeric payloads of the external
`score::json` document model).
-/

/-- Error taxonomy of the store, mirroring the C++ `MyErrorCode` enumeration
exercised in `test_kvs.cpp` (test `kvs_MessageFor`). -/
inductive MyErrorCode where
  | UnmappedError
  | FileNotFound
  | KvsFileReadError
  | KvsHashFileReadError
  | JsonParserError
  | JsonGeneratorError
  | PhysicalStorageFailure
  | IntegrityCorrupted
  | ValidationFailed
  | EncryptionFailed
  | ResourceBusy
  | OutOfStorageSpace
  | QuotaExceeded
  | AuthenticationFailed
  | KeyNotFound
  | KeyDefaultNotFound
  | SerializationFailed
  | InvalidSnapshotId
  | ConversionFailed
  | MutexLockFailed
  | InvalidValueType
  deriving DecidableEq

/-- Requiredness flag of `open_json` (C++ `OpenJsonNeedFile`): governs whether
a missing file is an error or yields an empty document. -/
inductive OpenJsonNeedFile where
  | Optional
  | Required
  deriving DecidableEq

/-- Structured document model, mirroring `score::json::Any` with variants
Null, Bool, Number, String, List and Object.  Numbers carry exact rationals:
the external document model preserves the numeric payload exactly. -/
inductive JsonAny where
  | null
  | bool (b : Bool)
  | num (q : ℚ)
  | str (s : String)
  | list (xs : List JsonAny)
  | obj (fields : List (String × JsonAny))

/-- Tagged value tree of the store, mirroring the C++ `KvsValue` variant with
its ten alternatives.  The four integer alternatives carry unbounded
`Int` / `Nat` together with the range conditions `KvsValue.wf` below (in C++
the ranges are enforced by the carrier types `int32_t`, `uint32_t`, `int64_t`,
`uint64_t`). -/
inductive KvsValue where
  | Null
  | Boolean (b : Bool)
  | I32 (n : Int)
  | U32 (n : Nat)
  | I64 (n : Int)
  | U64 (n : Nat)
  | F64 (q : ℚ)
  | Str (s : String)
  | Array (xs : List KvsValue)
  | Object (fields : List (String × KvsValue))

mutual

/-- Well-formedness of a `KvsValue`: every integer alternative is within the
range of its declared C++ carrier type.  A value produced by the C++ program
always satisfies this, because the C++ variant stores fixed-width integers. -/
def KvsValue.wf : KvsValue → Bool
  | KvsValue.I32 n => decide (-(2 ^ 31) ≤ n ∧ n < 2 ^ 31)
  | KvsValue.U32 n => decide (n < 2 ^ 32)
  | KvsValue.I64 n => decide (-(2 ^ 63) ≤ n ∧ n < 2 ^ 63)
  | KvsValue.U64 n => decide (n < 2 ^ 64)
  | KvsValue.Array xs => wf_value_list xs
  | KvsValue.Object fs => wf_value_fields fs
  | _ => true

/-- Well-formedness of every element of an array payload. -/
def wf_value_list : List KvsValue → Bool
  | [] => true
  | v :: r => KvsValue.wf v && wf_value_list r

/-- Well-formedness of every value of an object payload. -/
def wf_value_fields : List (String × KvsValue) → Bool
  | [] => true
  | (_, v) :: r => KvsValue.wf v && wf_value_fields r

end

mutual

/-- Modelled from the spec: the C++ `kvsvalue_to_any` of the missing
`kvs.cpp`.  Encodes a `KvsValue` as the tagged document
`{ "t": TAG, "v": PAYLOAD }` (spec section 4.2 and the
`kvs_kvsvalue_to_any` tests).  The C++ function can only fail on a
corrupted variant tag, which the Lean sum type cannot represent, so the
model is total. -/
def kvsvalue_to_any : KvsValue → JsonAny
  | KvsValue.Null => JsonAny.obj [("t", JsonAny.str "null"), ("v", JsonAny.null)]
  | KvsValue.Boolean b => JsonAny.obj [("t", JsonAny.str "bool"), ("v", JsonAny.bool b)]
  | KvsValue.I32 n => JsonAny.obj [("t", JsonAny.str "i32"), ("v", JsonAny.num (n : ℚ))]
  | KvsValue.U32 n => JsonAny.obj [("t", JsonAny.str "u32"), ("v", JsonAny.num (n : ℚ))]
  | KvsValue.I64 n => JsonAny.obj [("t", JsonAny.str "i64"), ("v", JsonAny.num (n : ℚ))]
  | KvsValue.U64 n => JsonAny.obj [("t", JsonAny.str "u64"), ("v", JsonAny.num (n : ℚ))]
  | KvsValue.F64 q => JsonAny.obj [("t", JsonAny.str "f64"), ("v", JsonAny.num q)]
  | KvsValue.Str s => JsonAny.obj [("t", JsonAny.str "str"), ("v", JsonAny.str s)]
  | KvsValue.Array xs =>
      JsonAny.obj [("t", JsonAny.str "arr"), ("v", JsonAny.list (encode_value_list xs))]
  | KvsValue.Object fs =>
      JsonAny.obj [("t", JsonAny.str "obj"), ("v", JsonAny.obj (encode_value_fields fs))]

/-- Encoding of the elements of an array payload, in order. -/
def encode_value_list : List KvsValue → List JsonAny
  | [] => []
  | v :: r => kvsvalue_to_any v :: encode_value_list r

/-- Encoding of the entries of an object payload, in order. -/
def encode_value_fields : List (String × KvsValue) → List (String × JsonAny)
  | [] => []
  | (k, v) :: r => (k, kvsvalue_to_any v) :: encode_value_fields r

end

/-- Decoding of a payload against a scalar (non-recursive) tag, the
scalar half of the tag dispatch of the decoder.  A number payload of an
integer tag must be an integer that fits the declared width (spec: the
number must round-trip to the declared integer width); an unrecognized tag
yields `InvalidValueType`. -/
def decode_scalar (tag : String) (p : JsonAny) : Except MyErrorCode KvsValue :=
  if tag = "null" then
    match p with
    | JsonAny.null => Except.ok KvsValue.Null
    | _ => Except.error MyErrorCode.InvalidValueType
  else if tag = "bool" then
    match p with
    | JsonAny.bool b => Except.ok (KvsValue.Boolean b)
    | _ => Except.error MyErrorCode.InvalidValueType
  else if tag = "i32" then
    match p with
    | JsonAny.num q =>
        if q.den = 1 ∧ -(2 ^ 31) ≤ q.num ∧ q.num < 2 ^ 31 then
          Except.ok (KvsValue.I32 q.num)
        else Except.error MyErrorCode.InvalidValueType
    | _ => Except.error MyErrorCode.InvalidValueType
  else if tag = "u32" then
    match p with
    | JsonAny.num q =>
        if q.den = 1 ∧ 0 ≤ q.num ∧ q.num < 2 ^ 32 then
          Except.ok (KvsValue.U32 q.num.toNat)
        else Except.error MyErrorCode.InvalidValueType
    | _ => Except.error MyErrorCode.InvalidValueType
  else if tag = "i64" then
    match p with
    | JsonAny.num q =>
        if q.den = 1 ∧ -(2 ^ 63) ≤ q.num ∧ q.num < 2 ^ 63 then
          Except.ok (KvsValue.I64 q.num)
        else Except.error MyErrorCode.InvalidValueType
    | _ => Except.error MyErrorCode.InvalidValueType
  else if tag = "u64" then
    match p with
    | JsonAny.num q =>
        if q.den = 1 ∧ 0 ≤ q.num ∧ q.num < 2 ^ 64 then
          Except.ok (KvsValue.U64 q.num.toNat)
        else Except.error MyErrorCode.InvalidValueType
    | _ => Except.error MyErrorCode.InvalidValueType
  else if tag = "f64" then
    match p with
    | JsonAny.num q => Except.ok (KvsValue.F64 q)
    | _ => Except.error MyErrorCode.InvalidValueType
  else if tag = "str" then
    match p with
    | JsonAny.str s => Except.ok (KvsValue.Str s)
    | _ => Except.error MyErrorCode.InvalidValueType
  else Except.error MyErrorCode.InvalidValueType

mutual

/-- Modelled from the spec: the C++ `any_to_kvsvalue` of the missing
`kvs.cpp`.  Decodes a tagged document (spec section 4.2 and the
`kvs_any_to_kvsvalue` tests): the document must be an object with exactly
the two keys `t` and `v` (in either stored order), `t` must be a string,
and the payload under `v` must match the tag; every violation yields
`InvalidValueType`. -/
def any_to_kvsvalue : JsonAny → Except MyErrorCode KvsValue
  | JsonAny.obj [(k1, w1), (k2, w2)] =>
      if k1 = "t" ∧ k2 = "v" then
        match w1 with
        | JsonAny.str tag => decode_tagged tag w2
        | _ => Except.error MyErrorCode.InvalidValueType
      else if k1 = "v" ∧ k2 = "t" then
        match w2 with
        | JsonAny.str tag => decode_tagged tag w1
        | _ => Except.error MyErrorCode.InvalidValueType
      else Except.error MyErrorCode.InvalidValueType
  | _ => Except.error MyErrorCode.InvalidValueType

/-- Decoding of a payload against a tag: the recursive array and object
tags are handled here, every other tag by the scalar dispatch. -/
def decode_tagged (tag : String) (p : JsonAny) : Except MyErrorCode KvsValue :=
  if tag = "arr" then
    match p with
    | JsonAny.list xs => Except.map KvsValue.Array (decode_value_list xs)
    | _ => Except.error MyErrorCode.InvalidValueType
  else if tag = "obj" then
    match p with
    | JsonAny.obj fs => Except.map KvsValue.Object (decode_value_fields fs)
    | _ => Except.error MyErrorCode.InvalidValueType
  else decode_scalar tag p

/-- Decoding of the elements of an array payload; the first failing element
fails the whole decode. -/
def decode_value_list : List JsonAny → Except MyErrorCode (List KvsValue)
  | [] => Except.ok []
  | x :: r =>
      match any_to_kvsvalue x with
      | Except.error e => Except.error e
      | Except.ok v =>
          match decode_value_list r with
          | Except.error e => Except.error e
          | Except.ok vs => Except.ok (v :: vs)

/-- Decoding of the entries of an object payload; the first failing entry
fails the whole decode. -/
def decode_value_fields : List (String × JsonAny) → Except MyErrorCode (List (String × KvsValue))
  | [] => Except.ok []
  | (k, x) :: r =>
      match any_to_kvsvalue x with
      | Except.error e => Except.error e
      | Except.ok v =>
          match decode_value_fields r with
          | Except.error e => Except.error e
          | Except.ok vs => Except.ok ((k, v) :: vs)

end

example : any_to_kvsvalue (kvsvalue_to_any (KvsValue.Array [KvsValue.Boolean true,
    KvsValue.F64 (11 / 10), KvsValue.Str "test"])) =
    Except.ok (KvsValue.Array [KvsValue.Boolean true, KvsValue.F64 (11 / 10),
      KvsValue.Str "test"]) := rfl

/-- Mismatch of a payload against a scalar tag, including the
unrecognized-tag case and the integer width conditions. -/
def bad_scalar (tag : String) (p : JsonAny) : Bool :=
  if tag = "null" then
    match p with
    | JsonAny.null => false
    | _ => true
  else if tag = "bool" then
    match p with
    | JsonAny.bool _ => false
    | _ => true
  else if tag = "i32" then
    match p with
    | JsonAny.num q => !decide (q.den = 1 ∧ -(2 ^ 31) ≤ q.num ∧ q.num < 2 ^ 31)
    | _ => true
  else if tag = "u32" then
    match p with
    | JsonAny.num q => !decide (q.den = 1 ∧ 0 ≤ q.num ∧ q.num < 2 ^ 32)
    | _ => true
  else if tag = "i64" then
    match p with
    | JsonAny.num q => !decide (q.den = 1 ∧ -(2 ^ 63) ≤ q.num ∧ q.num < 2 ^ 63)
    | _ => true
  else if tag = "u64" then
    match p with
    | JsonAny.num q => !decide (q.den = 1 ∧ 0 ≤ q.num ∧ q.num < 2 ^ 64)
    | _ => true
  else if tag = "f64" then
    match p with
    | JsonAny.num _ => false
    | _ => true
  else if tag = "str" then
    match p with
    | JsonAny.str _ => false
    | _ => true
  else true

mutual

/-- Invalidity of a tagged document, worded after the specification of the
decoder (spec section 4.2): a document is invalid when it is not an object,
when it does not have exactly the keys `t` and `v`, when its `t` is not a
string, when its `t` is unrecognized, or when its payload does not match the
tag; array and object payloads are checked recursively. -/
def bad_doc : JsonAny → Bool
  | JsonAny.obj [(k1, w1), (k2, w2)] =>
      if k1 = "t" ∧ k2 = "v" then
        match w1 with
        | JsonAny.str tag => bad_tagged tag w2
        | _ => true
      else if k1 = "v" ∧ k2 = "t" then
        match w2 with
        | JsonAny.str tag => bad_tagged tag w1
        | _ => true
      else true
  | _ => true

/-- Mismatch of a payload against a tag: the recursive array and object
tags are checked here, every other tag by the scalar mismatch check. -/
def bad_tagged (tag : String) (p : JsonAny) : Bool :=
  if tag = "arr" then
    match p with
    | JsonAny.list xs => bad_value_list xs
    | _ => true
  else if tag = "obj" then
    match p with
    | JsonAny.obj fs => bad_value_fields fs
    | _ => true
  else bad_scalar tag p

/-- An array payload is invalid when some element is invalid. -/
def bad_value_list : List JsonAny → Bool
  | [] => false
  | x :: r => bad_doc x || bad_value_list r

/-- An object payload is invalid when some entry value is invalid. -/
def bad_value_fields : List (String × JsonAny) → Bool
  | [] => false
  | (_, x) :: r => bad_doc x || bad_value_fields r

end

/-- Accumulator loop of the reference Adler-32 implementation found in
`test_kvs.cpp` (function `adler32`, lines 63 to 71): both 16-bit
accumulators are reduced modulo 65521 at every byte, and the result is
`(b << 16) | a`. -/
def adler32_go : List Nat → Nat → Nat → Nat
  | [], a, b => (b <<< 16) ||| a
  | c :: rest, a, b =>
      adler32_go rest ((a + c) % 65521) ((b + (a + c) % 65521) % 65521)

/-- Reference Adler-32 checksum of a byte sequence, translated from the
control implementation in `test_kvs.cpp`: `a = 1`, `b = 0`, per byte
`a := (a + c) % 65521` then `b := (b + a) % 65521`, result `(b << 16) | a`. -/
def adler32 (data : List Nat) : Nat :=
  adler32_go data 1 0

/-- Modelled from the spec: the C++ `calculate_hash_adler32` of the missing
`kvs.cpp`, written as a left fold carrying the accumulator pair, per spec
section 4.1 (the tests `kvs_calculate_hash_adler32` check it against the
reference implementation, also on inputs longer than 5552 bytes). -/
def calculate_hash_adler32 (data : List Nat) : Nat :=
  let p := data.foldl
    (fun (ab : Nat × Nat) c =>
      ((ab.1 + c) % 65521, (ab.2 + (ab.1 + c) % 65521) % 65521))
    (1, 0)
  (p.2 <<< 16) ||| p.1

/-- Modelled from the spec: the C++ `get_hash_bytes` of the missing
`kvs.cpp`: the four bytes of the checksum in big-endian order, as checked
byte for byte by the tests (`(hash >> 24) & 0xFF` first). -/
def get_hash_bytes (data : List Nat) : List Nat :=
  let h := calculate_hash_adler32 data
  [(h >>> 24) &&& 255, (h >>> 16) &&& 255, (h >>> 8) &&& 255, h &&& 255]

/-- Modelled from the spec: reconstruction of the 32-bit checksum value from
the first four bytes of the hash file, big-endian (spec section 4.3, step 4:
the verifier reads 4 raw bytes and reconstructs the value big-endian). -/
def decode_hash_be32 : List Nat → Nat
  | b0 :: b1 :: b2 :: b3 :: _ => b0 * 2 ^ 24 + b1 * 2 ^ 16 + b2 * 2 ^ 8 + b3
  | _ => 0

/-- Lookup of a key in the stored entries of a map, modelling
`unordered_map::find` over the entries an instance holds. -/
def kv_lookup : String → List (String × KvsValue) → Option KvsValue
  | _, [] => none
  | k, (k2, v) :: r => if k = k2 then some v else kv_lookup k r

/-- Removal of a key from the stored entries of a map, modelling
`unordered_map::erase`. -/
def kv_erase : String → List (String × KvsValue) → List (String × KvsValue)
  | _, [] => []
  | k, (k2, v) :: r => if k = k2 then kv_erase k r else (k2, v) :: kv_erase k r

/-- In-memory aggregate of an instance as far as the key operations are
concerned: the live map (C++ member `kvs`) and the default layer (C++
member `default_values`), each a collection of key-value entries. -/
structure Kvs where
  kvs : List (String × KvsValue)
  default_values : List (String × KvsValue)

/-- Modelled from the spec: the C++ `Kvs::get_value` of the missing
`kvs.cpp` (spec section 4.5 and the `kvs_get_value` tests): the live entry
when present, otherwise the default entry, otherwise `KeyNotFound`. -/
def get_value (s : Kvs) (key : String) : Except MyErrorCode KvsValue :=
  match kv_lookup key s.kvs with
  | some v => Except.ok v
  | none =>
      match kv_lookup key s.default_values with
      | some v => Except.ok v
      | none => Except.error MyErrorCode.KeyNotFound

/-- Modelled from the spec: the C++ `Kvs::has_default_value` of the missing
`kvs.cpp`: whether the default layer holds the key. -/
def has_default_value (s : Kvs) (key : String) : Bool :=
  (kv_lookup key s.default_values).isSome

/-- Modelled from the spec: the C++ `Kvs::reset_key` of the missing
`kvs.cpp` (spec section 4.5 and the `kvs_reset_key` tests): the key is
removed from the live map only when a default exists for it, otherwise the
state is left unchanged and `KeyDefaultNotFound` is returned. -/
def reset_key (s : Kvs) (key : String) : Except MyErrorCode Kvs :=
  if (kv_lookup key s.default_values).isSome then
    Except.ok { s with kvs := kv_erase key s.kvs }
  else Except.error MyErrorCode.KeyDefaultNotFound

/-- Modelled from the spec: the C++ `Kvs::parse_json_data` of the missing
`kvs.cpp` (tests `kvs_TEST.parse_json_data_success` and `_failure`): a
parse failure or a non-object root yields `JsonParserError`, then every
entry is translated with `any_to_kvsvalue`, whose error is passed
through.  The injected external parser is a parameter, as in the C++
class, and returns `none` on a parse failure. -/
def parse_json_data (parse : List Nat → Option JsonAny) (data : List Nat) :
    Except MyErrorCode (List (String × KvsValue)) :=
  match parse data with
  | none => Except.error MyErrorCode.JsonParserError
  | some (JsonAny.obj fields) => decode_value_fields fields
  | some _ => Except.error MyErrorCode.JsonParserError

/-- Modelled from the spec: the C++ `Kvs::open_json` of the missing
`kvs.cpp` (spec section 4.3 and the `kvs_open_json` tests).  The two files
are given by their byte contents, `none` when absent; the hash file must
deliver at least 4 bytes, of which exactly the first 4 are compared
big-endian against the Adler-32 of the data. -/
def open_json (json_file hash_file : Option (List Nat))
    (parse : List Nat → Option JsonAny) (need : OpenJsonNeedFile) :
    Except MyErrorCode (List (String × KvsValue)) :=
  match json_file with
  | none =>
      match need with
      | OpenJsonNeedFile.Optional => Except.ok []
      | OpenJsonNeedFile.Required => Except.error MyErrorCode.KvsFileReadError
  | some data =>
      match hash_file with
      | none => Except.error MyErrorCode.KvsHashFileReadError
      | some h =>
          if h.length < 4 then Except.error MyErrorCode.KvsHashFileReadError
          else if decode_hash_be32 h ≠ calculate_hash_adler32 data then
            Except.error MyErrorCode.ValidationFailed
          else parse_json_data parse data

/-- Bound of the snapshot ring.  Modelled from the spec: the compile-time
constant `KVS_MAX_SNAPSHOTS` lives in the missing `kvs.hpp`; the spec names
3 as its typical value. -/
def KVS_MAX_SNAPSHOTS : Nat := 3

/-- On-disk generations of one instance: slot 0 is the working generation,
slots 1 and beyond are the rotated snapshots.  A slot holds the stored
document of a written generation pair (the external codec and the verified
checksum pair are treated as faithful at this level, per spec sections 2
and 6), and `none` where no generation file exists. -/
structure Disk where
  slots : Nat → Option JsonAny

/-- Disk without any generation file. -/
def empty_disk : Disk := ⟨fun _ => none⟩

/-- Counting loop of `snapshot_count`: starting at index `i` with the given
number of indices left to probe, the count grows while the probed slot
exists and stops at the first absence. -/
def count_go (d : Disk) : Nat → Nat → Nat
  | _, 0 => 0
  | i, fuel + 1 => if (d.slots i).isSome then count_go d (i + 1) fuel + 1 else 0

/-- Modelled from the spec: the C++ `Kvs::snapshot_count` of the missing
`kvs.cpp` (spec section 4.4 and the `kvs_snapshot_count` tests): walks the
indices 1 to `KVS_MAX_SNAPSHOTS`, incrementing while the snapshot file
exists.  Filesystem probes are total at this level of the model. -/
def snapshot_count (d : Disk) : Nat :=
  count_go d 1 KVS_MAX_SNAPSHOTS

/-- Renaming of generation `i` to generation `i + 1`, as one step of the
rotation: the source slot no longer exists afterwards and the target slot
is overwritten. -/
def rename_slot (d : Disk) (i : Nat) : Disk :=
  ⟨fun j => if j = i + 1 then d.slots i else if j = i then none else d.slots j⟩

/-- Descending rename loop of the rotation, from the given start index down
to 0. -/
def rot_go : Disk → Nat → Disk
  | d, 0 => rename_slot d 0
  | d, i + 1 => rot_go (rename_slot d (i + 1)) i

/-- Modelled from the spec: the C++ `Kvs::snapshot_rotate` of the missing
`kvs.cpp` (spec section 4.4): for `i` descending from
`min(count, KVS_MAX_SNAPSHOTS - 1)` down to 0, generation `i` is renamed to
`i + 1`; an existing oldest snapshot is overwritten. -/
def snapshot_rotate (d : Disk) : Disk :=
  rot_go d (min (snapshot_count d) (KVS_MAX_SNAPSHOTS - 1))

/-- Top-level document of a live map: an object whose keys are the store
keys and whose values are the tagged encodings. -/
def kvsmap_to_doc (m : List (String × KvsValue)) : JsonAny :=
  JsonAny.obj (encode_value_fields m)

/-- Translation of a loaded top-level document back into a map; a
non-object root yields `JsonParserError` as in `parse_json_data`. -/
def doc_to_kvsmap : JsonAny → Except MyErrorCode (List (String × KvsValue))
  | JsonAny.obj fields => decode_value_fields fields
  | _ => Except.error MyErrorCode.JsonParserError

/-- Modelled from the spec: the success path of the C++ `Kvs::flush` of the
missing `kvs.cpp` (spec section 4.5 and the `kvs_flush` tests): the live
map is encoded into a document; when a working generation 0 already exists
the ring is rotated first; then the document is written as the new
generation 0. -/
def flush (live : List (String × KvsValue)) (d : Disk) : Disk :=
  let d2 := if (d.slots 0).isSome then snapshot_rotate d else d
  ⟨fun j => if j = 0 then some (kvsmap_to_doc live) else d2.slots j⟩

/-- Loading of the live map at open time from generation 0 (spec section
4.5: `open` loads the live map through `open_json` on `<prefix>_0` with the
caller-supplied requiredness). -/
def open_kvs (d : Disk) (need : OpenJsonNeedFile) :
    Except MyErrorCode (List (String × KvsValue)) :=
  match d.slots 0 with
  | none =>
      match need with
      | OpenJsonNeedFile.Optional => Except.ok []
      | OpenJsonNeedFile.Required => Except.error MyErrorCode.KvsFileReadError
  | some doc => doc_to_kvsmap doc

/-- Disk after `n` consecutive successful flushes starting from an empty
directory, the live map before flush `k` being `live_at k`. -/
def flushN (live_at : Nat → List (String × KvsValue)) : Nat → Disk
  | 0 => empty_disk
  | k + 1 => flush (live_at k) (flushN live_at k)

/-- Instance state as far as snapshot restoration is concerned: the on-disk
generations together with the in-memory live and default maps. -/
structure KvsState where
  disk : Disk
  kvs : List (String × KvsValue)
  default_values : List (String × KvsValue)

/-- Loading of snapshot `id` in Required mode: an absent snapshot file is
`KvsFileReadError`, an existing one is translated like any loaded
document. -/
def open_snapshot (d : Disk) (id : Nat) :
    Except MyErrorCode (List (String × KvsValue)) :=
  match d.slots id with
  | none => Except.error MyErrorCode.KvsFileReadError
  | some doc => doc_to_kvsmap doc

/-- Modelled from the spec: the C++ `Kvs::snapshot_restore` of the missing
`kvs.cpp` (spec section 4.4 and the `kvs_snapshot_restore` tests): an id
outside `0 < id ≤ snapshot_count()` is `InvalidSnapshotId`; a valid id is
loaded through `open_json` in Required mode and replaces the live map,
while the defaults and the disk are untouched. -/
def snapshot_restore (s : KvsState) (id : Nat) : Except MyErrorCode KvsState :=
  if id = 0 ∨ snapshot_count s.disk < id then
    Except.error MyErrorCode.InvalidSnapshotId
  else Except.map (fun m => { s with kvs := m }) (open_snapshot s.disk id)

/-- Builder configuration, translated from `src/kvsbuilder.cpp`: the
instance id, the two requiredness flags, the directory, and a tag giving
the identity of this builder object (for the static
`latest_instance` pointer). -/
structure KvsBuilder where
  tag : Nat
  id : Nat
  need_defaults : Bool
  need_kvs : Bool
  directory : String

/-- Process-wide static state of the builder, translated from
`src/kvsbuilder.cpp`: the static member `kvs_map` caching one shared `Kvs`
per instance id (the cached instance is represented by its identity token),
and the static member `latest_instance` (the tag of the most recently
constructed builder). -/
structure BuilderCache where
  kvs_map : List (Nat × Nat)
  latest : Option Nat

/-- Lookup in the builder cache, modelling `kvs_map.find(instance_id.id)`. -/
def cache_lookup : Nat → List (Nat × Nat) → Option Nat
  | _, [] => none
  | i, (i2, p) :: r => if i = i2 then some p else cache_lookup i r

/-- Effect of the `KvsBuilder` constructor on the static state
(`kvsbuilder.cpp`, lines 23 to 27): the new builder becomes the latest
instance. -/
def KvsBuilder.construct (st : BuilderCache) (tag : Nat) : BuilderCache :=
  { st with latest := some tag }

/-- Effect of the `KvsBuilder` destructor on the static state
(`kvsbuilder.cpp`, lines 29 to 34): the cache map is cleared exactly when
the destroyed builder is the latest instance. -/
def KvsBuilder.destruct (st : BuilderCache) (tag : Nat) : BuilderCache :=
  if st.latest = some tag then { st with kvs_map := [] } else st

/-- Translation of `KvsBuilder::build` (`kvsbuilder.cpp`, lines 54 to 90).
An empty directory is normalized to `./`; a cached instance for the id is
returned as is; otherwise `Kvs::open` (injected here as `open_fn`, taking
the id, the two flags mapped to requiredness, and the directory) is
invoked, and on success the fresh shared instance is inserted into the
cache.  The returned flag records whether the `Kvs::open` branch was
taken. -/
def KvsBuilder.build (b : KvsBuilder) (st : BuilderCache)
    (open_fn : Nat → Bool → Bool → String → Except MyErrorCode Nat) :
    Except MyErrorCode Nat × BuilderCache × Bool :=
  let dir := if b.directory = "" then "./" else b.directory
  match cache_lookup b.id st.kvs_map with
  | some p => (Except.ok p, st, false)
  | none =>
      match open_fn b.id b.need_defaults b.need_kvs dir with
      | Except.ok k => (Except.ok k, { st with kvs_map := (b.id, k) :: st.kvs_map }, true)
      | Except.error e => (Except.error e, st, true)

/-- C1: for every key and every instance state, `get_value` returns the
live entry when the key is present in the live map, otherwise the default
entry when present in the defaults map, otherwise it fails with
`KeyNotFound`. -/
theorem get_value_ladder (s : Kvs) (key : String) :
    (∀ v, kv_lookup key s.kvs = some v → get_value s key = Except.ok v) ∧
    (kv_lookup key s.kvs = none →
      ∀ v, kv_lookup key s.default_values = some v → get_value s key = Except.ok v) ∧
    (kv_lookup key s.kvs = none → kv_lookup key s.default_values = none →
      get_value s key = Except.error MyErrorCode.KeyNotFound) := by
  refine ⟨?_, ?_, ?_⟩
  · intro v h
    simp [get_value, h]
  · intro h v h2
    simp [get_value, h, h2]
  · intro h h2
    simp [get_value, h, h2]

/-- Closed instance of `get_value_ladder` on the data of the
`kvs_get_value` test: the live entry wins, the default layer answers for a
key only the defaults hold, and an unknown key is `KeyNotFound`. -/
theorem get_value_ladder_witness :
    get_value ⟨[("kvs", KvsValue.I32 2)], [("default", KvsValue.I32 5)]⟩ "kvs" =
      Except.ok (KvsValue.I32 2) ∧
    get_value ⟨[("kvs", KvsValue.I32 2)], [("default", KvsValue.I32 5)]⟩ "default" =
      Except.ok (KvsValue.I32 5) ∧
    get_value ⟨[("kvs", KvsValue.I32 2)], [("default", KvsValue.I32 5)]⟩ "missing" =
      Except.error MyErrorCode.KeyNotFound :=
  ⟨(get_value_ladder ⟨[("kvs", KvsValue.I32 2)], [("default", KvsValue.I32 5)]⟩ "kvs").1
      (KvsValue.I32 2) rfl,
   (get_value_ladder ⟨[("kvs", KvsValue.I32 2)], [("default", KvsValue.I32 5)]⟩ "default").2.1
      rfl (KvsValue.I32 5) rfl,
   (get_value_ladder ⟨[("kvs", KvsValue.I32 2)], [("default", KvsValue.I32 5)]⟩ "missing").2.2
      rfl rfl⟩

/-- Lookup of an erased key finds nothing. -/
theorem kv_lookup_erase (key : String) (m : List (String × KvsValue)) :
    kv_lookup key (kv_erase key m) = none := by
  induction m with
  | nil => rfl
  | cons e r ih =>
      obtain ⟨k2, v⟩ := e
      by_cases h : key = k2
      · subst h
        simp [kv_erase, ih]
      · simp [kv_erase, kv_lookup, h, ih]

/-- C7 counterexample: on a state whose live map holds the key but whose
default layer does not, `reset_key` fails with `KeyDefaultNotFound` and
leaves the state unchanged, so the following `get_value` still returns the
live value rather than `KeyNotFound`, refuting the claimed
else-`KeyNotFound` branch. -/
theorem reset_key_then_get_value_cex :
    reset_key ⟨[("kvs", KvsValue.I32 2)], []⟩ "kvs" =
      Except.error MyErrorCode.KeyDefaultNotFound ∧
    has_default_value ⟨[("kvs", KvsValue.I32 2)], []⟩ "kvs" = false ∧
    get_value ⟨[("kvs", KvsValue.I32 2)], []⟩ "kvs" = Except.ok (KvsValue.I32 2) ∧
    get_value ⟨[("kvs", KvsValue.I32 2)], []⟩ "kvs" ≠
      Except.error MyErrorCode.KeyNotFound := by
  refine ⟨rfl, rfl, rfl, ?_⟩
  intro h
  exact Except.noConfusion h

/-- C7 as amended: `reset_key` removes the key from the live map exactly
when a default exists for it and fails with `KeyDefaultNotFound` otherwise,
leaving the state unchanged; after a successful reset, `get_value` returns
the default; after a failed reset the state is unchanged, so `get_value`
returns the live entry when present and `KeyNotFound` otherwise. -/
theorem reset_key_spec (s : Kvs) (key : String) :
    (∀ v, kv_lookup key s.default_values = some v →
      reset_key s key = Except.ok ⟨kv_erase key s.kvs, s.default_values⟩ ∧
      get_value ⟨kv_erase key s.kvs, s.default_values⟩ key = Except.ok v) ∧
    (has_default_value s key = false →
      reset_key s key = Except.error MyErrorCode.KeyDefaultNotFound) ∧
    (has_default_value s key = false → kv_lookup key s.kvs = none →
      get_value s key = Except.error MyErrorCode.KeyNotFound) ∧
    (has_default_value s key = false → ∀ v, kv_lookup key s.kvs = some v →
      get_value s key = Except.ok v) := by
  refine ⟨?_, ?_, ?_, ?_⟩
  · intro v h
    constructor
    · simp [reset_key, h]
    · simp [get_value, kv_lookup_erase, h]
  · intro h
    cases hd : kv_lookup key s.default_values with
    | none => simp [reset_key, hd]
    | some v => simp [has_default_value, hd] at h
  · intro h h2
    cases hd : kv_lookup key s.default_values with
    | none => simp [get_value, h2, hd]
    | some v => simp [has_default_value, hd] at h
  · intro h v h2
    simp [get_value, h2]

/-- Closed instance of `reset_key_spec` on the data of the
`kvs_reset_key` tests: with a default present the key is removed and the
default becomes visible; without a default the reset fails. -/
theorem reset_key_spec_witness :
    reset_key ⟨[("kvs", KvsValue.I32 2)], [("kvs", KvsValue.F64 42)]⟩ "kvs" =
      Except.ok ⟨[], [("kvs", KvsValue.F64 42)]⟩ ∧
    get_value ⟨[], [("kvs", KvsValue.F64 42)]⟩ "kvs" = Except.ok (KvsValue.F64 42) ∧
    reset_key ⟨[("kvs", KvsValue.I32 2)], []⟩ "non_existing_key" =
      Except.error MyErrorCode.KeyDefaultNotFound := by
  refine ⟨?_, ?_, ?_⟩
  · exact ((reset_key_spec ⟨[("kvs", KvsValue.I32 2)], [("kvs", KvsValue.F64 42)]⟩ "kvs").1
      (KvsValue.F64 42) rfl).1
  · exact ((reset_key_spec ⟨[("kvs", KvsValue.I32 2)], [("kvs", KvsValue.F64 42)]⟩ "kvs").1
      (KvsValue.F64 42) rfl).2
  · exact (reset_key_spec ⟨[("kvs", KvsValue.I32 2)], []⟩ "non_existing_key").2.1 rfl

/-- C10: a `build` that finds its instance id in the process-wide cache
returns the cached shared instance, leaves the cache unchanged and does not
invoke `Kvs::open`, regardless of the flags and directory of the builder at
hand; after any successful `build` the returned instance is cached under
the id, so every later `build` for the same id returns that same instance
without opening; the constructor makes a builder the latest instance, and
the destructor clears the cache exactly when run on the latest instance. -/
theorem kvsbuilder_cache_spec :
    (∀ (b : KvsBuilder) (st : BuilderCache) open_fn p,
      cache_lookup b.id st.kvs_map = some p →
      KvsBuilder.build b st open_fn = (Except.ok p, st, false)) ∧
    (∀ (b : KvsBuilder) (st : BuilderCache) open_fn k st2 inv,
      KvsBuilder.build b st open_fn = (Except.ok k, st2, inv) →
      ∀ (b2 : KvsBuilder) open_fn2, b2.id = b.id →
        KvsBuilder.build b2 st2 open_fn2 = (Except.ok k, st2, false)) ∧
    (∀ (st : BuilderCache) tag, (KvsBuilder.construct st tag).latest = some tag ∧
      (KvsBuilder.construct st tag).kvs_map = st.kvs_map) ∧
    (∀ (st : BuilderCache) tag, st.latest ≠ some tag →
      KvsBuilder.destruct st tag = st) ∧
    (∀ (st : BuilderCache) tag, st.latest = some tag →
      (KvsBuilder.destruct st tag).kvs_map = []) := by
  have hhit : ∀ (b : KvsBuilder) (st : BuilderCache) open_fn p,
      cache_lookup b.id st.kvs_map = some p →
      KvsBuilder.build b st open_fn = (Except.ok p, st, false) := by
    intro b st open_fn p h
    simp [KvsBuilder.build, h]
  refine ⟨hhit, ?_, ?_, ?_, ?_⟩
  · intro b st open_fn k st2 inv hbuild b2 open_fn2 hid
    have hcached : cache_lookup b.id st2.kvs_map = some k := by
      cases hl : cache_lookup b.id st.kvs_map with
      | some p =>
          rw [hhit b st open_fn p hl] at hbuild
          simp only [Prod.mk.injEq, Except.ok.injEq] at hbuild
          obtain ⟨h1, h2, -⟩ := hbuild
          rw [← h2, ← h1]
          exact hl
      | none =>
          cases ho : open_fn b.id b.need_defaults b.need_kvs
              (if b.directory = "" then "./" else b.directory) with
          | ok k2 =>
              simp only [KvsBuilder.build, hl, ho, Prod.mk.injEq, Except.ok.injEq] at hbuild
              obtain ⟨h1, h2, -⟩ := hbuild
              rw [← h2]
              simp [cache_lookup, h1]
          | error e =>
              simp [KvsBuilder.build, hl, ho] at hbuild
    rw [← hid] at hcached
    exact hhit b2 st2 open_fn2 k hcached
  · intro st tag
    exact ⟨rfl, rfl⟩
  · intro st tag h
    simp [KvsBuilder.destruct, h]
  · intro st tag h
    simp [KvsBuilder.destruct, h]

/-- Closed instance of `kvsbuilder_cache_spec`: with instance id 123
already cached as instance 7, a build with different flags and directory
returns instance 7 without opening; destroying a non-latest builder keeps
the cache, destroying the latest clears it. -/
theorem kvsbuilder_cache_spec_witness :
    KvsBuilder.build ⟨2, 123, true, false, "./kvsbuilder/"⟩ ⟨[(123, 7)], some 1⟩
      (fun _ _ _ _ => Except.error MyErrorCode.UnmappedError) =
      (Except.ok 7, ⟨[(123, 7)], some 1⟩, false) ∧
    KvsBuilder.destruct ⟨[(123, 7)], some 1⟩ 2 = ⟨[(123, 7)], some 1⟩ ∧
    (KvsBuilder.destruct ⟨[(123, 7)], some 1⟩ 1).kvs_map = [] :=
  ⟨kvsbuilder_cache_spec.1 ⟨2, 123, true, false, "./kvsbuilder/"⟩ ⟨[(123, 7)], some 1⟩
      (fun _ _ _ _ => Except.error MyErrorCode.UnmappedError) 7 rfl,
   kvsbuilder_cache_spec.2.2.2.1 ⟨[(123, 7)], some 1⟩ 2 (by simp),
   kvsbuilder_cache_spec.2.2.2.2 ⟨[(123, 7)], some 1⟩ 1 rfl⟩

/-- Accumulator loop of the reference checksum, expressed through the left
fold of the implementation. -/
theorem adler32_go_foldl (data : List Nat) : ∀ a b,
    adler32_go data a b =
      ((data.foldl (fun (ab : Nat × Nat) c =>
          ((ab.1 + c) % 65521, (ab.2 + (ab.1 + c) % 65521) % 65521)) (a, b)).2 <<< 16) |||
        (data.foldl (fun (ab : Nat × Nat) c =>
          ((ab.1 + c) % 65521, (ab.2 + (ab.1 + c) % 65521) % 65521)) (a, b)).1 := by
  induction data with
  | nil => intro a b; rfl
  | cons c rest ih =>
      intro a b
      rw [adler32_go, List.foldl_cons]
      exact ih _ _

/-- Both accumulators of the fold stay below the modulus. -/
theorem adler32_foldl_bound (data : List Nat) : ∀ a b, a < 65521 → b < 65521 →
    (data.foldl (fun (ab : Nat × Nat) c =>
        ((ab.1 + c) % 65521, (ab.2 + (ab.1 + c) % 65521) % 65521)) (a, b)).1 < 65521 ∧
    (data.foldl (fun (ab : Nat × Nat) c =>
        ((ab.1 + c) % 65521, (ab.2 + (ab.1 + c) % 65521) % 65521)) (a, b)).2 < 65521 := by
  induction data with
  | nil => intro a b ha hb; exact ⟨ha, hb⟩
  | cons c rest ih =>
      intro a b _ _
      rw [List.foldl_cons]
      exact ih _ _ (Nat.mod_lt _ (by norm_num)) (Nat.mod_lt _ (by norm_num))

/-- Big-endian reconstruction of the four extracted bytes of a 32-bit
value gives the value back. -/
theorem decode_hash_be32_bytes (h : Nat) (hlt : h < 2 ^ 32) :
    decode_hash_be32 [(h >>> 24) &&& 255, (h >>> 16) &&& 255, (h >>> 8) &&& 255, h &&& 255] =
      h := by
  have h255 : (255 : Nat) = 2 ^ 8 - 1 := by norm_num
  simp only [decode_hash_be32, h255, Nat.and_pow_two_sub_one_eq_mod,
    Nat.shiftRight_eq_div_pow]
  omega

/-- C9: the checksum implementation agrees with the reference Adler-32
definition on every byte sequence (the statement is universally quantified,
so it covers in particular sequences longer than 5552 bytes), and the
four on-disk hash bytes are the big-endian encoding of the checksum:
reconstructing them big-endian gives the checksum back. -/
theorem calculate_hash_adler32_spec (data : List Nat) :
    calculate_hash_adler32 data = adler32 data ∧
    decode_hash_be32 (get_hash_bytes data) = calculate_hash_adler32 data := by
  constructor
  · rw [calculate_hash_adler32, adler32, adler32_go_foldl data 1 0]
  · have hb := adler32_foldl_bound data 1 0 (by norm_num) (by norm_num)
    have hlt : calculate_hash_adler32 data < 2 ^ 32 := by
      rw [calculate_hash_adler32]
      apply Nat.or_lt_two_pow
      · rw [Nat.shiftLeft_eq]
        have h2 := hb.2
        rw [show (2 : Nat) ^ 16 = 65536 from by norm_num,
          show (2 : Nat) ^ 32 = 4294967296 from by norm_num]
        omega
      · have h1 := hb.1
        rw [show (2 : Nat) ^ 32 = 4294967296 from by norm_num]
        omega
    have hshape : get_hash_bytes data =
        [(calculate_hash_adler32 data >>> 24) &&& 255,
         (calculate_hash_adler32 data >>> 16) &&& 255,
         (calculate_hash_adler32 data >>> 8) &&& 255,
         calculate_hash_adler32 data &&& 255] := rfl
    rw [hshape]
    exact decode_hash_be32_bytes _ hlt

/-- C4: the failure ladder of `open_json`.  With the json file absent the
result is the empty document for Optional and `KvsFileReadError` for
Required; with the hash file absent or shorter than 4 bytes the result is
`KvsHashFileReadError`; with a big-endian hash value differing from the
Adler-32 of the data the result is `ValidationFailed`; with unparsable
bytes or a non-object root the result is `JsonParserError`. -/
theorem open_json_ladder (parse : List Nat → Option JsonAny) :
    (∀ hash_file, open_json none hash_file parse OpenJsonNeedFile.Optional =
      Except.ok []) ∧
    (∀ hash_file, open_json none hash_file parse OpenJsonNeedFile.Required =
      Except.error MyErrorCode.KvsFileReadError) ∧
    (∀ data need, open_json (some data) none parse need =
      Except.error MyErrorCode.KvsHashFileReadError) ∧
    (∀ data h need, h.length < 4 → open_json (some data) (some h) parse need =
      Except.error MyErrorCode.KvsHashFileReadError) ∧
    (∀ data h need, 4 ≤ h.length →
      decode_hash_be32 h ≠ calculate_hash_adler32 data →
      open_json (some data) (some h) parse need =
        Except.error MyErrorCode.ValidationFailed) ∧
    (∀ data h need, 4 ≤ h.length →
      decode_hash_be32 h = calculate_hash_adler32 data → parse data = none →
      open_json (some data) (some h) parse need =
        Except.error MyErrorCode.JsonParserError) ∧
    (∀ data h need doc, 4 ≤ h.length →
      decode_hash_be32 h = calculate_hash_adler32 data → parse data = some doc →
      (∀ fields, doc ≠ JsonAny.obj fields) →
      open_json (some data) (some h) parse need =
        Except.error MyErrorCode.JsonParserError) := by
  refine ⟨fun _ => rfl, fun _ => rfl, fun _ _ => rfl, ?_, ?_, ?_, ?_⟩
  · intro data h need hlen
    simp [open_json, hlen]
  · intro data h need hlen hne
    simp [open_json, Nat.not_lt_of_le hlen, hne]
  · intro data h need hlen heq hp
    simp [open_json, Nat.not_lt_of_le hlen, heq, parse_json_data, hp]
  · intro data h need doc hlen heq hp hobj
    cases doc
    case obj fields => exact absurd rfl (hobj fields)
    all_goals simp [open_json, Nat.not_lt_of_le hlen, heq, parse_json_data, hp]

/-- Closed instance of `open_json_ladder` mirroring the
`kvs_open_json` tests: a too-short hash file, a wrong hash value, bytes the
injected parser rejects, and a parsed non-object root. -/
theorem open_json_ladder_witness :
    open_json (some [123, 125]) (some [1, 2]) (fun _ => none)
      OpenJsonNeedFile.Optional = Except.error MyErrorCode.KvsHashFileReadError ∧
    open_json (some [123, 125]) (some [255, 255, 255, 255]) (fun _ => none)
      OpenJsonNeedFile.Optional = Except.error MyErrorCode.ValidationFailed ∧
    open_json (some [123, 125]) (some [1, 117, 0, 249]) (fun _ => none)
      OpenJsonNeedFile.Required = Except.error MyErrorCode.JsonParserError ∧
    open_json (some [123, 125]) (some [1, 117, 0, 249]) (fun _ => some (JsonAny.num 42))
      OpenJsonNeedFile.Required = Except.error MyErrorCode.JsonParserError := by
  refine ⟨?_, ?_, ?_, ?_⟩
  · exact (open_json_ladder (fun _ => none)).2.2.2.1 [123, 125] [1, 2]
      OpenJsonNeedFile.Optional (by norm_num)
  · exact (open_json_ladder (fun _ => none)).2.2.2.2.1 [123, 125] [255, 255, 255, 255]
      OpenJsonNeedFile.Optional (by norm_num) (by decide)
  · exact (open_json_ladder (fun _ => none)).2.2.2.2.2.1 [123, 125] [1, 117, 0, 249]
      OpenJsonNeedFile.Required (by norm_num) (by decide) rfl
  · exact (open_json_ladder (fun _ => some (JsonAny.num 42))).2.2.2.2.2.2 [123, 125]
      [1, 117, 0, 249] OpenJsonNeedFile.Required (JsonAny.num 42) (by norm_num) (by decide)
      rfl (fun fields h => JsonAny.noConfusion h)

/-- Decoding of a two-field object in stored order dispatches on the tag. -/
theorem any_to_kvsvalue_tagged (tag : String) (p : JsonAny) :
    any_to_kvsvalue (JsonAny.obj [("t", JsonAny.str tag), ("v", p)]) =
      decode_tagged tag p := rfl

/-- Decoding of a two-field object in swapped stored order dispatches on
the tag as well. -/
theorem any_to_kvsvalue_tagged_swapped (tag : String) (p : JsonAny) :
    any_to_kvsvalue (JsonAny.obj [("v", p), ("t", JsonAny.str tag)]) =
      decode_tagged tag p := rfl

/-- Unfolding of the i32 payload check. -/
theorem decode_tagged_i32 (q : ℚ) : decode_tagged "i32" (JsonAny.num q) =
    if q.den = 1 ∧ -(2 ^ 31) ≤ q.num ∧ q.num < 2 ^ 31 then
      Except.ok (KvsValue.I32 q.num)
    else Except.error MyErrorCode.InvalidValueType := rfl

/-- Unfolding of the u32 payload check. -/
theorem decode_tagged_u32 (q : ℚ) : decode_tagged "u32" (JsonAny.num q) =
    if q.den = 1 ∧ 0 ≤ q.num ∧ q.num < 2 ^ 32 then
      Except.ok (KvsValue.U32 q.num.toNat)
    else Except.error MyErrorCode.InvalidValueType := rfl

/-- Unfolding of the i64 payload check. -/
theorem decode_tagged_i64 (q : ℚ) : decode_tagged "i64" (JsonAny.num q) =
    if q.den = 1 ∧ -(2 ^ 63) ≤ q.num ∧ q.num < 2 ^ 63 then
      Except.ok (KvsValue.I64 q.num)
    else Except.error MyErrorCode.InvalidValueType := rfl

/-- Unfolding of the u64 payload check. -/
theorem decode_tagged_u64 (q : ℚ) : decode_tagged "u64" (JsonAny.num q) =
    if q.den = 1 ∧ 0 ≤ q.num ∧ q.num < 2 ^ 64 then
      Except.ok (KvsValue.U64 q.num.toNat)
    else Except.error MyErrorCode.InvalidValueType := rfl

/-- Unfolding of the array payload decode. -/
theorem decode_tagged_arr (xs : List JsonAny) : decode_tagged "arr" (JsonAny.list xs) =
    Except.map KvsValue.Array (decode_value_list xs) := rfl

/-- Unfolding of the object payload decode. -/
theorem decode_tagged_obj (fs : List (String × JsonAny)) :
    decode_tagged "obj" (JsonAny.obj fs) =
      Except.map KvsValue.Object (decode_value_fields fs) := rfl

/-- Successful decode of an array payload element list. -/
theorem decode_value_list_cons_ok (x : JsonAny) (r : List JsonAny) (v : KvsValue)
    (vs : List KvsValue) (hx : any_to_kvsvalue x = Except.ok v)
    (hr : decode_value_list r = Except.ok vs) :
    decode_value_list (x :: r) = Except.ok (v :: vs) := by
  simp only [decode_value_list, hx, hr]

/-- Successful decode of an object payload entry list. -/
theorem decode_value_fields_cons_ok (k : String) (x : JsonAny)
    (r : List (String × JsonAny)) (v : KvsValue) (vs : List (String × KvsValue))
    (hx : any_to_kvsvalue x = Except.ok v)
    (hr : decode_value_fields r = Except.ok vs) :
    decode_value_fields ((k, x) :: r) = Except.ok ((k, v) :: vs) := by
  simp only [decode_value_fields, hx, hr]

/-- Round-trip of decode after encode, proved simultaneously for values,
array payloads and object payloads by strong induction on the size. -/
theorem rt_aux : ∀ n : Nat,
    (∀ v : KvsValue, sizeOf v ≤ n → KvsValue.wf v = true →
      any_to_kvsvalue (kvsvalue_to_any v) = Except.ok v) ∧
    (∀ xs : List KvsValue, sizeOf xs ≤ n → wf_value_list xs = true →
      decode_value_list (encode_value_list xs) = Except.ok xs) ∧
    (∀ fs : List (String × KvsValue), sizeOf fs ≤ n → wf_value_fields fs = true →
      decode_value_fields (encode_value_fields fs) = Except.ok fs) := by
  intro n
  induction n using Nat.strong_induction_on with
  | _ n ih =>
    refine ⟨?_, ?_, ?_⟩
    · intro v hsz hwf
      cases v with
      | Null => rfl
      | Boolean b => rfl
      | F64 q => rfl
      | Str s => rfl
      | I32 m =>
          simp only [KvsValue.wf, decide_eq_true_eq] at hwf
          rw [show kvsvalue_to_any (KvsValue.I32 m) =
            JsonAny.obj [("t", JsonAny.str "i32"), ("v", JsonAny.num (m : ℚ))] from rfl,
            any_to_kvsvalue_tagged, decode_tagged_i32]
          simp only [Rat.den_intCast, Rat.num_intCast]
          rw [if_pos ⟨trivial, hwf.1, hwf.2⟩]
      | I64 m =>
          simp only [KvsValue.wf, decide_eq_true_eq] at hwf
          rw [show kvsvalue_to_any (KvsValue.I64 m) =
            JsonAny.obj [("t", JsonAny.str "i64"), ("v", JsonAny.num (m : ℚ))] from rfl,
            any_to_kvsvalue_tagged, decode_tagged_i64]
          simp only [Rat.den_intCast, Rat.num_intCast]
          rw [if_pos ⟨trivial, hwf.1, hwf.2⟩]
      | U32 m =>
          simp only [KvsValue.wf, decide_eq_true_eq] at hwf
          have h2 : ((m : ℤ)) < 2 ^ 32 := by exact_mod_cast hwf
          rw [show kvsvalue_to_any (KvsValue.U32 m) =
            JsonAny.obj [("t", JsonAny.str "u32"), ("v", JsonAny.num (m : ℚ))] from rfl,
            any_to_kvsvalue_tagged, decode_tagged_u32]
          simp only [Rat.den_natCast, Rat.num_natCast, Int.toNat_natCast]
          rw [if_pos ⟨trivial, Int.natCast_nonneg m, h2⟩]
      | U64 m =>
          simp only [KvsValue.wf, decide_eq_true_eq] at hwf
          have h2 : ((m : ℤ)) < 2 ^ 64 := by exact_mod_cast hwf
          rw [show kvsvalue_to_any (KvsValue.U64 m) =
            JsonAny.obj [("t", JsonAny.str "u64"), ("v", JsonAny.num (m : ℚ))] from rfl,
            any_to_kvsvalue_tagged, decode_tagged_u64]
          simp only [Rat.den_natCast, Rat.num_natCast, Int.toNat_natCast]
          rw [if_pos ⟨trivial, Int.natCast_nonneg m, h2⟩]
      | Array xs =>
          simp only [KvsValue.wf] at hwf
          have hs : sizeOf xs < n := by
            have h := hsz
            simp only [KvsValue.Array.sizeOf_spec] at h
            omega
          have hlist := (ih (sizeOf xs) hs).2.1 xs le_rfl hwf
          rw [show kvsvalue_to_any (KvsValue.Array xs) = JsonAny.obj [("t", JsonAny.str "arr"),
            ("v", JsonAny.list (encode_value_list xs))] from rfl,
            any_to_kvsvalue_tagged, decode_tagged_arr, hlist]
          rfl
      | Object fs =>
          simp only [KvsValue.wf] at hwf
          have hs : sizeOf fs < n := by
            have h := hsz
            simp only [KvsValue.Object.sizeOf_spec] at h
            omega
          have hfields := (ih (sizeOf fs) hs).2.2 fs le_rfl hwf
          rw [show kvsvalue_to_any (KvsValue.Object fs) = JsonAny.obj [("t", JsonAny.str "obj"),
            ("v", JsonAny.obj (encode_value_fields fs))] from rfl,
            any_to_kvsvalue_tagged, decode_tagged_obj, hfields]
          rfl
    · intro xs hsz hwf
      cases xs with
      | nil => rfl
      | cons x r =>
          simp only [wf_value_list, Bool.and_eq_true] at hwf
          have hx : sizeOf x < n := by
            have h := hsz
            simp only [List.cons.sizeOf_spec] at h
            omega
          have hr : sizeOf r < n := by
            have h := hsz
            simp only [List.cons.sizeOf_spec] at h
            omega
          have h1 := (ih (sizeOf x) hx).1 x le_rfl hwf.1
          have h2 := (ih (sizeOf r) hr).2.1 r le_rfl hwf.2
          rw [show encode_value_list (x :: r) =
            kvsvalue_to_any x :: encode_value_list r from rfl]
          exact decode_value_list_cons_ok _ _ _ _ h1 h2
    · intro fs hsz hwf
      cases fs with
      | nil => rfl
      | cons e r =>
          obtain ⟨k, x⟩ := e
          simp only [wf_value_fields, Bool.and_eq_true] at hwf
          have hx : sizeOf x < n := by
            have h := hsz
            simp only [List.cons.sizeOf_spec, Prod.mk.sizeOf_spec] at h
            omega
          have hr : sizeOf r < n := by
            have h := hsz
            simp only [List.cons.sizeOf_spec] at h
            omega
          have h1 := (ih (sizeOf x) hx).1 x le_rfl hwf.1
          have h2 := (ih (sizeOf r) hr).2.2 r le_rfl hwf.2
          rw [show encode_value_fields ((k, x) :: r) =
            (k, kvsvalue_to_any x) :: encode_value_fields r from rfl]
          exact decode_value_fields_cons_ok _ _ _ _ _ h1 h2

/-- C2: for every well-formed `KvsValue` of any of the ten alternatives,
including arbitrarily nested Array and Object values, decoding the encoded
tagged document yields the value back (well-formedness states that every
integer alternative fits its declared C++ carrier width, which every value
of the C++ program satisfies by construction). -/
theorem kvsvalue_roundtrip (v : KvsValue) (h : KvsValue.wf v = true) :
    any_to_kvsvalue (kvsvalue_to_any v) = Except.ok v :=
  (rt_aux (sizeOf v)).1 v le_rfl h

/-- Closed instance of `kvsvalue_roundtrip` on a nested value covering all
ten alternatives. -/
theorem kvsvalue_roundtrip_witness :
    KvsValue.wf (KvsValue.Object [("a", KvsValue.Array [KvsValue.Boolean true,
      KvsValue.F64 (11 / 10), KvsValue.Str "t", KvsValue.I32 (-7), KvsValue.U32 42,
      KvsValue.I64 (-81985529216486895), KvsValue.U64 18446744073709551615,
      KvsValue.Null]), ("n", KvsValue.Null)]) = true ∧
    any_to_kvsvalue (kvsvalue_to_any (KvsValue.Object [("a", KvsValue.Array
      [KvsValue.Boolean true, KvsValue.F64 (11 / 10), KvsValue.Str "t",
      KvsValue.I32 (-7), KvsValue.U32 42, KvsValue.I64 (-81985529216486895),
      KvsValue.U64 18446744073709551615, KvsValue.Null]), ("n", KvsValue.Null)])) =
      Except.ok (KvsValue.Object [("a", KvsValue.Array [KvsValue.Boolean true,
      KvsValue.F64 (11 / 10), KvsValue.Str "t", KvsValue.I32 (-7), KvsValue.U32 42,
      KvsValue.I64 (-81985529216486895), KvsValue.U64 18446744073709551615,
      KvsValue.Null]), ("n", KvsValue.Null)]) :=
  ⟨by decide, kvsvalue_roundtrip _ (by decide)⟩

/-- Invalidity of a tagged two-field document reduces to the tag check. -/
theorem bad_doc_tagged (tag : String) (p : JsonAny) :
    bad_doc (JsonAny.obj [("t", JsonAny.str tag), ("v", p)]) = bad_tagged tag p := rfl

/-- Invalidity of a swapped tagged two-field document reduces to the tag
check as well. -/
theorem bad_doc_tagged_swapped (tag : String) (p : JsonAny) :
    bad_doc (JsonAny.obj [("v", p), ("t", JsonAny.str tag)]) = bad_tagged tag p := rfl

/-- Unfolding of the decoder on a two-field object with arbitrary keys. -/
theorem any_to_kvsvalue_two (k1 k2 : String) (w1 w2 : JsonAny) :
    any_to_kvsvalue (JsonAny.obj [(k1, w1), (k2, w2)]) =
      if k1 = "t" ∧ k2 = "v" then
        match w1 with
        | JsonAny.str tag => decode_tagged tag w2
        | _ => Except.error MyErrorCode.InvalidValueType
      else if k1 = "v" ∧ k2 = "t" then
        match w2 with
        | JsonAny.str tag => decode_tagged tag w1
        | _ => Except.error MyErrorCode.InvalidValueType
      else Except.error MyErrorCode.InvalidValueType := rfl

/-- Unfolding of the invalidity predicate on a two-field object with
arbitrary keys. -/
theorem bad_doc_two (k1 k2 : String) (w1 w2 : JsonAny) :
    bad_doc (JsonAny.obj [(k1, w1), (k2, w2)]) =
      if k1 = "t" ∧ k2 = "v" then
        match w1 with
        | JsonAny.str tag => bad_tagged tag w2
        | _ => true
      else if k1 = "v" ∧ k2 = "t" then
        match w2 with
        | JsonAny.str tag => bad_tagged tag w1
        | _ => true
      else true := rfl

/-- Scalar decode and the scalar mismatch check agree: either the payload
matches the scalar tag and decodes, or the decode fails with
`InvalidValueType` and the mismatch check reports true. -/
theorem decode_scalar_spec (tag : String) (p : JsonAny) :
    (∃ v, decode_scalar tag p = Except.ok v ∧ bad_scalar tag p = false) ∨
    (decode_scalar tag p = Except.error MyErrorCode.InvalidValueType ∧
      bad_scalar tag p = true) := by
  by_cases h0 : tag = "null"
  · subst h0
    cases p with
    | null => exact Or.inl ⟨KvsValue.Null, rfl, rfl⟩
    | bool b => exact Or.inr ⟨rfl, rfl⟩
    | num q => exact Or.inr ⟨rfl, rfl⟩
    | str s => exact Or.inr ⟨rfl, rfl⟩
    | list xs => exact Or.inr ⟨rfl, rfl⟩
    | obj fs => exact Or.inr ⟨rfl, rfl⟩
  by_cases h1 : tag = "bool"
  · subst h1
    cases p with
    | bool b => exact Or.inl ⟨KvsValue.Boolean b, rfl, rfl⟩
    | null => exact Or.inr ⟨rfl, rfl⟩
    | num q => exact Or.inr ⟨rfl, rfl⟩
    | str s => exact Or.inr ⟨rfl, rfl⟩
    | list xs => exact Or.inr ⟨rfl, rfl⟩
    | obj fs => exact Or.inr ⟨rfl, rfl⟩
  by_cases h2 : tag = "i32"
  · subst h2
    cases p with
    | null => exact Or.inr ⟨rfl, rfl⟩
    | bool b => exact Or.inr ⟨rfl, rfl⟩
    | str s => exact Or.inr ⟨rfl, rfl⟩
    | list xs => exact Or.inr ⟨rfl, rfl⟩
    | obj fs => exact Or.inr ⟨rfl, rfl⟩
    | num q =>
      by_cases hc : q.den = 1 ∧ -(2 ^ 31) ≤ q.num ∧ q.num < 2 ^ 31
      · refine Or.inl ⟨KvsValue.I32 q.num, ?_, ?_⟩
        · rw [show decode_scalar "i32" (JsonAny.num q) =
            if q.den = 1 ∧ -(2 ^ 31) ≤ q.num ∧ q.num < 2 ^ 31 then
              Except.ok (KvsValue.I32 q.num)
            else Except.error MyErrorCode.InvalidValueType from rfl, if_pos hc]
        · rw [show bad_scalar "i32" (JsonAny.num q) =
            !decide (q.den = 1 ∧ -(2 ^ 31) ≤ q.num ∧ q.num < 2 ^ 31) from rfl,
            decide_eq_true hc]
          rfl
      · refine Or.inr ⟨?_, ?_⟩
        · rw [show decode_scalar "i32" (JsonAny.num q) =
            if q.den = 1 ∧ -(2 ^ 31) ≤ q.num ∧ q.num < 2 ^ 31 then
              Except.ok (KvsValue.I32 q.num)
            else Except.error MyErrorCode.InvalidValueType from rfl, if_neg hc]
        · rw [show bad_scalar "i32" (JsonAny.num q) =
            !decide (q.den = 1 ∧ -(2 ^ 31) ≤ q.num ∧ q.num < 2 ^ 31) from rfl,
            decide_eq_false hc]
          rfl
  by_cases h3 : tag = "u32"
  · subst h3
    cases p with
    | null => exact Or.inr ⟨rfl, rfl⟩
    | bool b => exact Or.inr ⟨rfl, rfl⟩
    | str s => exact Or.inr ⟨rfl, rfl⟩
    | list xs => exact Or.inr ⟨rfl, rfl⟩
    | obj fs => exact Or.inr ⟨rfl, rfl⟩
    | num q =>
      by_cases hc : q.den = 1 ∧ 0 ≤ q.num ∧ q.num < 2 ^ 32
      · refine Or.inl ⟨KvsValue.U32 q.num.toNat, ?_, ?_⟩
        · rw [show decode_scalar "u32" (JsonAny.num q) =
            if q.den = 1 ∧ 0 ≤ q.num ∧ q.num < 2 ^ 32 then
              Except.ok (KvsValue.U32 q.num.toNat)
            else Except.error MyErrorCode.InvalidValueType from rfl, if_pos hc]
        · rw [show bad_scalar "u32" (JsonAny.num q) =
            !decide (q.den = 1 ∧ 0 ≤ q.num ∧ q.num < 2 ^ 32) from rfl,
            decide_eq_true hc]
          rfl
      · refine Or.inr ⟨?_, ?_⟩
        · rw [show decode_scalar "u32" (JsonAny.num q) =
            if q.den = 1 ∧ 0 ≤ q.num ∧ q.num < 2 ^ 32 then
              Except.ok (KvsValue.U32 q.num.toNat)
            else Except.error MyErrorCode.InvalidValueType from rfl, if_neg hc]
        · rw [show bad_scalar "u32" (JsonAny.num q) =
            !decide (q.den = 1 ∧ 0 ≤ q.num ∧ q.num < 2 ^ 32) from rfl,
            decide_eq_false hc]
          rfl
  by_cases h4 : tag = "i64"
  · subst h4
    cases p with
    | null => exact Or.inr ⟨rfl, rfl⟩
    | bool b => exact Or.inr ⟨rfl, rfl⟩
    | str s => exact Or.inr ⟨rfl, rfl⟩
    | list xs => exact Or.inr ⟨rfl, rfl⟩
    | obj fs => exact Or.inr ⟨rfl, rfl⟩
    | num q =>
      by_cases hc : q.den = 1 ∧ -(2 ^ 63) ≤ q.num ∧ q.num < 2 ^ 63
      · refine Or.inl ⟨KvsValue.I64 q.num, ?_, ?_⟩
        · rw [show decode_scalar "i64" (JsonAny.num q) =
            if q.den = 1 ∧ -(2 ^ 63) ≤ q.num ∧ q.num < 2 ^ 63 then
              Except.ok (KvsValue.I64 q.num)
            else Except.error MyErrorCode.InvalidValueType from rfl, if_pos hc]
        · rw [show bad_scalar "i64" (JsonAny.num q) =
            !decide (q.den = 1 ∧ -(2 ^ 63) ≤ q.num ∧ q.num < 2 ^ 63) from rfl,
            decide_eq_true hc]
          rfl
      · refine Or.inr ⟨?_, ?_⟩
        · rw [show decode_scalar "i64" (JsonAny.num q) =
            if q.den = 1 ∧ -(2 ^ 63) ≤ q.num ∧ q.num < 2 ^ 63 then
              Except.ok (KvsValue.I64 q.num)
            else Except.error MyErrorCode.InvalidValueType from rfl, if_neg hc]
        · rw [show bad_scalar "i64" (JsonAny.num q) =
            !decide (q.den = 1 ∧ -(2 ^ 63) ≤ q.num ∧ q.num < 2 ^ 63) from rfl,
            decide_eq_false hc]
          rfl
  by_cases h5 : tag = "u64"
  · subst h5
    cases p with
    | null => exact Or.inr ⟨rfl, rfl⟩
    | bool b => exact Or.inr ⟨rfl, rfl⟩
    | str s => exact Or.inr ⟨rfl, rfl⟩
    | list xs => exact Or.inr ⟨rfl, rfl⟩
    | obj fs => exact Or.inr ⟨rfl, rfl⟩
    | num q =>
      by_cases hc : q.den = 1 ∧ 0 ≤ q.num ∧ q.num < 2 ^ 64
      · refine Or.inl ⟨KvsValue.U64 q.num.toNat, ?_, ?_⟩
        · rw [show decode_scalar "u64" (JsonAny.num q) =
            if q.den = 1 ∧ 0 ≤ q.num ∧ q.num < 2 ^ 64 then
              Except.ok (KvsValue.U64 q.num.toNat)
            else Except.error MyErrorCode.InvalidValueType from rfl, if_pos hc]
        · rw [show bad_scalar "u64" (JsonAny.num q) =
            !decide (q.den = 1 ∧ 0 ≤ q.num ∧ q.num < 2 ^ 64) from rfl,
            decide_eq_true hc]
          rfl
      · refine Or.inr ⟨?_, ?_⟩
        · rw [show decode_scalar "u64" (JsonAny.num q) =
            if q.den = 1 ∧ 0 ≤ q.num ∧ q.num < 2 ^ 64 then
              Except.ok (KvsValue.U64 q.num.toNat)
            else Except.error MyErrorCode.InvalidValueType from rfl, if_neg hc]
        · rw [show bad_scalar "u64" (JsonAny.num q) =
            !decide (q.den = 1 ∧ 0 ≤ q.num ∧ q.num < 2 ^ 64) from rfl,
            decide_eq_false hc]
          rfl
  by_cases h6 : tag = "f64"
  · subst h6
    cases p with
    | num q => exact Or.inl ⟨KvsValue.F64 q, rfl, rfl⟩
    | null => exact Or.inr ⟨rfl, rfl⟩
    | bool b => exact Or.inr ⟨rfl, rfl⟩
    | str s => exact Or.inr ⟨rfl, rfl⟩
    | list xs => exact Or.inr ⟨rfl, rfl⟩
    | obj fs => exact Or.inr ⟨rfl, rfl⟩
  by_cases h7 : tag = "str"
  · subst h7
    cases p with
    | str s => exact Or.inl ⟨KvsValue.Str s, rfl, rfl⟩
    | null => exact Or.inr ⟨rfl, rfl⟩
    | bool b => exact Or.inr ⟨rfl, rfl⟩
    | num q => exact Or.inr ⟨rfl, rfl⟩
    | list xs => exact Or.inr ⟨rfl, rfl⟩
    | obj fs => exact Or.inr ⟨rfl, rfl⟩
  refine Or.inr ⟨?_, ?_⟩
  · simp only [decode_scalar]
    rw [if_neg h0, if_neg h1, if_neg h2, if_neg h3, if_neg h4, if_neg h5, if_neg h6,
      if_neg h7]
  · simp only [bad_scalar]
    rw [if_neg h0, if_neg h1, if_neg h2, if_neg h3, if_neg h4, if_neg h5, if_neg h6,
      if_neg h7]

set_option maxHeartbeats 1600000 in
/-- Decoding and the invalidity predicate agree, proved simultaneously for
documents, tagged payloads, array payloads and object payloads by strong
induction on the size: either the decode succeeds and the document is not
invalid, or the decode fails with `InvalidValueType` and the document is
invalid. -/
theorem c8_aux : ∀ n : Nat,
    (∀ d : JsonAny, sizeOf d ≤ n →
      (∃ v, any_to_kvsvalue d = Except.ok v ∧ bad_doc d = false) ∨
      (any_to_kvsvalue d = Except.error MyErrorCode.InvalidValueType ∧ bad_doc d = true)) ∧
    (∀ (tag : String) (p : JsonAny), sizeOf p ≤ n →
      (∃ v, decode_tagged tag p = Except.ok v ∧ bad_tagged tag p = false) ∨
      (decode_tagged tag p = Except.error MyErrorCode.InvalidValueType ∧
        bad_tagged tag p = true)) ∧
    (∀ xs : List JsonAny, sizeOf xs ≤ n →
      (∃ vs, decode_value_list xs = Except.ok vs ∧ bad_value_list xs = false) ∨
      (decode_value_list xs = Except.error MyErrorCode.InvalidValueType ∧
        bad_value_list xs = true)) ∧
    (∀ fs : List (String × JsonAny), sizeOf fs ≤ n →
      (∃ vs, decode_value_fields fs = Except.ok vs ∧ bad_value_fields fs = false) ∨
      (decode_value_fields fs = Except.error MyErrorCode.InvalidValueType ∧
        bad_value_fields fs = true)) := by
  intro n
  induction n using Nat.strong_induction_on with
  | _ n ih =>
    refine ⟨?_, ?_, ?_, ?_⟩
    · intro d hsz
      cases d
      case null => exact Or.inr ⟨rfl, rfl⟩
      case bool b => exact Or.inr ⟨rfl, rfl⟩
      case num q => exact Or.inr ⟨rfl, rfl⟩
      case str s => exact Or.inr ⟨rfl, rfl⟩
      case list xs => exact Or.inr ⟨rfl, rfl⟩
      case obj fields =>
        cases fields with
        | nil => exact Or.inr ⟨rfl, rfl⟩
        | cons e1 r1 =>
          obtain ⟨k1, w1⟩ := e1
          cases r1 with
          | nil => exact Or.inr ⟨rfl, rfl⟩
          | cons e2 r2 =>
            obtain ⟨k2, w2⟩ := e2
            cases r2 with
            | cons e3 r3 => exact Or.inr ⟨rfl, rfl⟩
            | nil =>
              by_cases h1 : k1 = "t" ∧ k2 = "v"
              · obtain ⟨hk1, hk2⟩ := h1
                subst hk1
                subst hk2
                cases w1 with
                | str tag =>
                  have hs : sizeOf w2 < n := by
                    have h := hsz
                    simp only [JsonAny.obj.sizeOf_spec, List.cons.sizeOf_spec,
                      Prod.mk.sizeOf_spec] at h
                    omega
                  rw [any_to_kvsvalue_tagged, bad_doc_tagged]
                  exact (ih (sizeOf w2) hs).2.1 tag w2 le_rfl
                | null => exact Or.inr ⟨rfl, rfl⟩
                | bool b => exact Or.inr ⟨rfl, rfl⟩
                | num q => exact Or.inr ⟨rfl, rfl⟩
                | list xs => exact Or.inr ⟨rfl, rfl⟩
                | obj fs2 => exact Or.inr ⟨rfl, rfl⟩
              · by_cases h2 : k1 = "v" ∧ k2 = "t"
                · obtain ⟨hk1, hk2⟩ := h2
                  subst hk1
                  subst hk2
                  cases w2 with
                  | str tag =>
                    have hs : sizeOf w1 < n := by
                      have h := hsz
                      simp only [JsonAny.obj.sizeOf_spec, List.cons.sizeOf_spec,
                        Prod.mk.sizeOf_spec] at h
                      omega
                    rw [any_to_kvsvalue_tagged_swapped, bad_doc_tagged_swapped]
                    exact (ih (sizeOf w1) hs).2.1 tag w1 le_rfl
                  | null => exact Or.inr ⟨rfl, rfl⟩
                  | bool b => exact Or.inr ⟨rfl, rfl⟩
                  | num q => exact Or.inr ⟨rfl, rfl⟩
                  | list xs => exact Or.inr ⟨rfl, rfl⟩
                  | obj fs2 => exact Or.inr ⟨rfl, rfl⟩
                · refine Or.inr ⟨?_, ?_⟩
                  · rw [any_to_kvsvalue_two, if_neg h1, if_neg h2]
                  · rw [bad_doc_two, if_neg h1, if_neg h2]
    · intro tag p hsz
      by_cases h8 : tag = "arr"
      · subst h8
        cases p with
        | null => exact Or.inr ⟨rfl, rfl⟩
        | bool b => exact Or.inr ⟨rfl, rfl⟩
        | num q => exact Or.inr ⟨rfl, rfl⟩
        | str s => exact Or.inr ⟨rfl, rfl⟩
        | obj fs => exact Or.inr ⟨rfl, rfl⟩
        | list xs =>
          have hs : sizeOf xs < n := by
            have h := hsz
            simp only [JsonAny.list.sizeOf_spec] at h
            omega
          rcases (ih (sizeOf xs) hs).2.2.1 xs le_rfl with ⟨vs, hok, hbad⟩ | ⟨herr, hbad⟩
          · refine Or.inl ⟨KvsValue.Array vs, ?_, ?_⟩
            · rw [decode_tagged_arr, hok]
              rfl
            · rw [show bad_tagged "arr" (JsonAny.list xs) = bad_value_list xs from rfl, hbad]
          · refine Or.inr ⟨?_, ?_⟩
            · rw [decode_tagged_arr, herr]
              rfl
            · rw [show bad_tagged "arr" (JsonAny.list xs) = bad_value_list xs from rfl, hbad]
      by_cases h9 : tag = "obj"
      · subst h9
        cases p with
        | null => exact Or.inr ⟨rfl, rfl⟩
        | bool b => exact Or.inr ⟨rfl, rfl⟩
        | num q => exact Or.inr ⟨rfl, rfl⟩
        | str s => exact Or.inr ⟨rfl, rfl⟩
        | list xs => exact Or.inr ⟨rfl, rfl⟩
        | obj fs =>
          have hs : sizeOf fs < n := by
            have h := hsz
            simp only [JsonAny.obj.sizeOf_spec] at h
            omega
          rcases (ih (sizeOf fs) hs).2.2.2 fs le_rfl with ⟨vs, hok, hbad⟩ | ⟨herr, hbad⟩
          · refine Or.inl ⟨KvsValue.Object vs, ?_, ?_⟩
            · rw [decode_tagged_obj, hok]
              rfl
            · rw [show bad_tagged "obj" (JsonAny.obj fs) = bad_value_fields fs from rfl, hbad]
          · refine Or.inr ⟨?_, ?_⟩
            · rw [decode_tagged_obj, herr]
              rfl
            · rw [show bad_tagged "obj" (JsonAny.obj fs) = bad_value_fields fs from rfl, hbad]
      have hd : decode_tagged tag p = decode_scalar tag p := by
        rw [decode_tagged.eq_def, if_neg h8, if_neg h9]
      have hb : bad_tagged tag p = bad_scalar tag p := by
        rw [bad_tagged.eq_def, if_neg h8, if_neg h9]
      rw [hd, hb]
      exact decode_scalar_spec tag p
    · intro xs hsz
      cases xs with
      | nil => exact Or.inl ⟨[], rfl, rfl⟩
      | cons x r =>
        have hx : sizeOf x < n := by
          have h := hsz
          simp only [List.cons.sizeOf_spec] at h
          omega
        have hr : sizeOf r < n := by
          have h := hsz
          simp only [List.cons.sizeOf_spec] at h
          omega
        rcases (ih (sizeOf x) hx).1 x le_rfl with ⟨v, hok, hbad⟩ | ⟨herr, hbad⟩
        · rcases (ih (sizeOf r) hr).2.2.1 r le_rfl with ⟨vs, hok2, hbad2⟩ | ⟨herr2, hbad2⟩
          · refine Or.inl ⟨v :: vs, ?_, ?_⟩
            · simp only [decode_value_list, hok, hok2]
            · simp only [bad_value_list, hbad, hbad2, Bool.or_self]
          · refine Or.inr ⟨?_, ?_⟩
            · simp only [decode_value_list, hok, herr2]
            · simp only [bad_value_list, hbad, hbad2, Bool.false_or]
        · refine Or.inr ⟨?_, ?_⟩
          · simp only [decode_value_list, herr]
          · simp only [bad_value_list, hbad, Bool.true_or]
    · intro fs hsz
      cases fs with
      | nil => exact Or.inl ⟨[], rfl, rfl⟩
      | cons e r =>
        obtain ⟨k, x⟩ := e
        have hx : sizeOf x < n := by
          have h := hsz
          simp only [List.cons.sizeOf_spec, Prod.mk.sizeOf_spec] at h
          omega
        have hr : sizeOf r < n := by
          have h := hsz
          simp only [List.cons.sizeOf_spec] at h
          omega
        rcases (ih (sizeOf x) hx).1 x le_rfl with ⟨v, hok, hbad⟩ | ⟨herr, hbad⟩
        · rcases (ih (sizeOf r) hr).2.2.2 r le_rfl with ⟨vs, hok2, hbad2⟩ | ⟨herr2, hbad2⟩
          · refine Or.inl ⟨(k, v) :: vs, ?_, ?_⟩
            · simp only [decode_value_fields, hok, hok2]
            · simp only [bad_value_fields, hbad, hbad2, Bool.or_self]
          · refine Or.inr ⟨?_, ?_⟩
            · simp only [decode_value_fields, hok, herr2]
            · simp only [bad_value_fields, hbad, hbad2, Bool.false_or]
        · refine Or.inr ⟨?_, ?_⟩
          · simp only [decode_value_fields, herr]
          · simp only [bad_value_fields, hbad, Bool.true_or]

/-- C8: decoding a document fails exactly when the document is invalid in
the sense of the specification (not an object, not exactly the keys t and
v, a non-string or unrecognized tag, or a payload whose shape does not
match the tag, checked recursively so that an invalid child of an array or
object payload fails the whole decode), and the reported error is always
`InvalidValueType`. -/
theorem any_to_kvsvalue_error_spec (d : JsonAny) (e : MyErrorCode) :
    any_to_kvsvalue d = Except.error e ↔
      e = MyErrorCode.InvalidValueType ∧ bad_doc d = true := by
  rcases (c8_aux (sizeOf d)).1 d le_rfl with ⟨v, hok, hbad⟩ | ⟨herr, hbad⟩
  · constructor
    · intro h
      rw [hok] at h
      exact Except.noConfusion h
    · intro h
      rw [hbad] at h
      exact Bool.noConfusion h.2
  · constructor
    · intro h
      rw [herr] at h
      injection h with he
      exact ⟨he.symm, hbad⟩
    · intro h
      rw [herr, h.1]

/-- The counting loop probes at most the given number of indices. -/
theorem count_go_le (d : Disk) : ∀ fuel i, count_go d i fuel ≤ fuel := by
  intro fuel
  induction fuel with
  | zero => intro i; rfl
  | succ fuel ih =>
      intro i
      rw [count_go]
      by_cases h : (d.slots i).isSome
      · rw [if_pos h]
        have := ih (i + 1)
        omega
      · rw [if_neg h]
        omega

/-- Every index the counting loop walked past exists. -/
theorem count_go_isSome (d : Disk) : ∀ fuel i j, i ≤ j → j < i + count_go d i fuel →
    (d.slots j).isSome = true := by
  intro fuel
  induction fuel with
  | zero =>
      intro i j h1 h2
      rw [count_go] at h2
      omega
  | succ fuel ih =>
      intro i j h1 h2
      rw [count_go] at h2
      by_cases h : (d.slots i).isSome
      · rw [if_pos h] at h2
        by_cases hji : j = i
        · rw [hji]
          exact h
        · exact ih (i + 1) j (by omega) (by omega)
      · rw [if_neg h] at h2
        omega

/-- The counting loop walks at least as far as any contiguous run of
existing indices within the probe budget. -/
theorem count_go_maximal (d : Disk) : ∀ fuel i m, m ≤ fuel →
    (∀ j, i ≤ j → j < i + m → (d.slots j).isSome = true) →
    m ≤ count_go d i fuel := by
  intro fuel
  induction fuel with
  | zero => intro i m hm _; omega
  | succ fuel ih =>
      intro i m hm hpres
      by_cases hm0 : m = 0
      · omega
      · have hi : (d.slots i).isSome = true := hpres i le_rfl (by omega)
        rw [count_go, if_pos hi]
        have := ih (i + 1) (m - 1) (by omega)
          (fun j hj1 hj2 => hpres j (by omega) (by omega))
        omega

/-- The counting loop stops no later than the first absent index. -/
theorem count_go_absent (d : Disk) : ∀ fuel i m, d.slots (i + m) = none →
    count_go d i fuel ≤ m := by
  intro fuel
  induction fuel with
  | zero => intro i m _; rw [count_go]; omega
  | succ fuel ih =>
      intro i m habs
      by_cases hm0 : m = 0
      · subst hm0
        have : (d.slots i).isSome = false := by
          have h0 : d.slots (i + 0) = none := habs
          rw [Nat.add_zero] at h0
          rw [h0]
          rfl
        rw [count_go, if_neg (by simp [this])]
      · rw [count_go]
        by_cases h : (d.slots i).isSome
        · rw [if_pos h]
          have := ih (i + 1) (m - 1) (by
            have : i + 1 + (m - 1) = i + m := by omega
            rw [this]
            exact habs)
          omega
        · rw [if_neg h]
          omega

/-- Value of `snapshot_count` on a disk whose snapshots form exactly the
run 1 to `m`. -/
theorem snapshot_count_eq (d : Disk) (m : Nat) (hm : m ≤ KVS_MAX_SNAPSHOTS)
    (hpres : ∀ j, 1 ≤ j → j ≤ m → (d.slots j).isSome = true)
    (habs : m < KVS_MAX_SNAPSHOTS → d.slots (m + 1) = none) :
    snapshot_count d = m := by
  have h1 : m ≤ snapshot_count d := by
    apply count_go_maximal d KVS_MAX_SNAPSHOTS 1 m hm
    intro j hj1 hj2
    exact hpres j hj1 (by omega)
  have h2 : snapshot_count d ≤ m := by
    by_cases h : m < KVS_MAX_SNAPSHOTS
    · exact count_go_absent d KVS_MAX_SNAPSHOTS 1 m (by
        have : 1 + m = m + 1 := by omega
        rw [this]
        exact habs h)
    · have hle := count_go_le d KVS_MAX_SNAPSHOTS 1
      rw [snapshot_count]
      omega
  omega

/-- Pointwise effect of the descending rename loop: slot 0 is gone, every
slot up to the start index plus one holds its predecessor, everything
beyond is untouched. -/
theorem rot_go_slots : ∀ (m : Nat) (d : Disk) (j : Nat),
    (rot_go d m).slots j =
      if j = 0 then none
      else if j ≤ m + 1 then d.slots (j - 1)
      else d.slots j := by
  intro m
  induction m with
  | zero =>
      intro d j
      rw [rot_go]
      show (if j = 0 + 1 then d.slots 0 else if j = 0 then none else d.slots j) = _
      by_cases h0 : j = 0
      · rw [if_neg (by omega), if_pos h0, if_pos h0]
      · by_cases h1 : j = 1
        · rw [if_pos (by omega), if_neg h0, if_pos (by omega)]
          rw [show j - 1 = 0 from by omega]
        · rw [if_neg (by omega), if_neg h0, if_neg h0, if_neg (by omega)]
  | succ m ih =>
      intro d j
      rw [show rot_go d (m + 1) = rot_go (rename_slot d (m + 1)) m from rfl, ih]
      by_cases h0 : j = 0
      · rw [if_pos h0, if_pos h0]
      · rw [if_neg h0, if_neg h0]
        by_cases h1 : j ≤ m + 1
        · rw [if_pos h1, if_pos (by omega)]
          show (if j - 1 = m + 1 + 1 then d.slots (m + 1)
            else if j - 1 = m + 1 then none else d.slots (j - 1)) = _
          rw [if_neg (by omega), if_neg (by omega)]
        · rw [if_neg h1]
          by_cases h2 : j = m + 2
          · rw [if_pos (by omega)]
            show (if j = m + 1 + 1 then d.slots (m + 1)
              else if j = m + 1 then none else d.slots j) = _
            rw [if_pos (by omega)]
            rw [show j - 1 = m + 1 from by omega]
          · rw [if_neg (by omega)]
            show (if j = m + 1 + 1 then d.slots (m + 1)
              else if j = m + 1 then none else d.slots j) = _
            rw [if_neg (by omega), if_neg (by omega)]

/-- Pointwise unfolding of a flush: slot 0 receives the encoded live map,
the rest comes from the rotated (or unrotated) previous disk. -/
theorem flush_slots (live : List (String × KvsValue)) (d : Disk) (j : Nat) :
    (flush live d).slots j =
      if j = 0 then some (kvsmap_to_doc live)
      else (if (d.slots 0).isSome then snapshot_rotate d else d).slots j := rfl

/-- Which generation files exist after `k` consecutive flushes from an
empty directory: generation 0 exists as soon as one flush happened, and
the snapshots are exactly 1 to `min (k - 1) KVS_MAX_SNAPSHOTS`. -/
theorem flushN_isSome (live_at : Nat → List (String × KvsValue)) :
    ∀ k j, ((flushN live_at k).slots j).isSome = true ↔
      ((j = 0 ∧ 1 ≤ k) ∨ (1 ≤ j ∧ j ≤ min (k - 1) KVS_MAX_SNAPSHOTS)) := by
  intro k
  induction k with
  | zero =>
      intro j
      show (Option.none (α := JsonAny)).isSome = true ↔ _
      simp only [Option.isSome_none, Bool.false_eq_true, false_iff]
      omega
  | succ k ih =>
      intro j
      rw [show flushN live_at (k + 1) = flush (live_at k) (flushN live_at k) from rfl,
        flush_slots]
      by_cases hj : j = 0
      · rw [if_pos hj]
        simp only [Option.isSome_some, true_iff]
        left
        omega
      · rw [if_neg hj]
        by_cases hk : k = 0
        · subst hk
          have h0 : ((flushN live_at 0).slots 0).isSome = false := rfl
          rw [if_neg (by simp [h0])]
          show (Option.none (α := JsonAny)).isSome = true ↔ _
          simp only [Option.isSome_none, Bool.false_eq_true, false_iff]
          omega
        · have hk1 : 1 ≤ k := by omega
          have h0some : ((flushN live_at k).slots 0).isSome = true :=
            (ih 0).mpr (Or.inl ⟨rfl, hk1⟩)
          rw [if_pos h0some]
          have hcount : snapshot_count (flushN live_at k) =
              min (k - 1) KVS_MAX_SNAPSHOTS := by
            apply snapshot_count_eq
            · omega
            · intro j2 hj1 hj2
              exact (ih j2).mpr (Or.inr ⟨hj1, hj2⟩)
            · intro hlt
              have hne : ¬ ((flushN live_at k).slots
                  (min (k - 1) KVS_MAX_SNAPSHOTS + 1)).isSome = true := by
                rw [ih]
                omega
              cases hopt : (flushN live_at k).slots
                  (min (k - 1) KVS_MAX_SNAPSHOTS + 1) with
              | none => rfl
              | some doc =>
                  rw [hopt] at hne
                  simp at hne
          rw [snapshot_rotate, hcount, rot_go_slots, if_neg hj]
          by_cases hle :
              j ≤ min (min (k - 1) KVS_MAX_SNAPSHOTS) (KVS_MAX_SNAPSHOTS - 1) + 1
          · rw [if_pos hle, ih (j - 1)]
            simp only [KVS_MAX_SNAPSHOTS] at hle ⊢
            omega
          · rw [if_neg hle, ih j]
            simp only [KVS_MAX_SNAPSHOTS] at hle ⊢
            omega

/-- An option whose `isSome` is not true is `none`. -/
theorem isSome_ne_true_eq_none {α : Type} (o : Option α)
    (h : ¬ o.isSome = true) : o = none := by
  cases o with
  | none => rfl
  | some a => simp at h

/-- C5: `snapshot_count` never exceeds `KVS_MAX_SNAPSHOTS` and equals the
largest run 1 to n of existing snapshot files; after `N` consecutive
flushes from empty with `N` above the bound, exactly `KVS_MAX_SNAPSHOTS`
snapshots exist on disk and no file with an index above the bound
exists. -/
theorem snapshot_count_spec :
    (∀ d : Disk, snapshot_count d ≤ KVS_MAX_SNAPSHOTS) ∧
    (∀ d : Disk,
      (∀ j, 1 ≤ j → j ≤ snapshot_count d → (d.slots j).isSome = true) ∧
      (∀ m, m ≤ KVS_MAX_SNAPSHOTS →
        (∀ j, 1 ≤ j → j ≤ m → (d.slots j).isSome = true) →
        m ≤ snapshot_count d)) ∧
    (∀ (live_at : Nat → List (String × KvsValue)) (N : Nat),
      KVS_MAX_SNAPSHOTS < N →
      snapshot_count (flushN live_at N) = KVS_MAX_SNAPSHOTS ∧
      (∀ j, 1 ≤ j → j ≤ KVS_MAX_SNAPSHOTS →
        ((flushN live_at N).slots j).isSome = true) ∧
      (∀ m, KVS_MAX_SNAPSHOTS < m → (flushN live_at N).slots m = none)) := by
  refine ⟨?_, ?_, ?_⟩
  · intro d
    exact count_go_le d KVS_MAX_SNAPSHOTS 1
  · intro d
    constructor
    · intro j hj1 hj2
      exact count_go_isSome d KVS_MAX_SNAPSHOTS 1 j hj1 (by
        rw [snapshot_count] at hj2
        omega)
    · intro m hm hpres
      exact count_go_maximal d KVS_MAX_SNAPSHOTS 1 m hm
        (fun j hj1 hj2 => hpres j hj1 (by omega))
  · intro live_at N hN
    have hpres : ∀ j, 1 ≤ j → j ≤ KVS_MAX_SNAPSHOTS →
        ((flushN live_at N).slots j).isSome = true := by
      intro j hj1 hj2
      exact (flushN_isSome live_at N j).mpr (Or.inr ⟨hj1, by omega⟩)
    refine ⟨?_, hpres, ?_⟩
    · apply snapshot_count_eq _ _ le_rfl hpres
      intro hlt
      omega
    · intro m hm
      apply isSome_ne_true_eq_none
      rw [flushN_isSome]
      omega

/-- Closed instance of `snapshot_count_spec`: four flushes from empty with
the bound at three leave exactly three snapshots, and no snapshot four. -/
theorem snapshot_count_spec_witness :
    snapshot_count (flushN (fun _ => []) 4) = KVS_MAX_SNAPSHOTS ∧
    (flushN (fun _ => []) 4).slots (KVS_MAX_SNAPSHOTS + 1) = none ∧
    ((flushN (fun _ => []) 4).slots KVS_MAX_SNAPSHOTS).isSome = true :=
  ⟨(snapshot_count_spec.2.2 (fun _ => []) 4 (by decide)).1,
   (snapshot_count_spec.2.2 (fun _ => []) 4 (by decide)).2.2 (KVS_MAX_SNAPSHOTS + 1)
     (by decide),
   (snapshot_count_spec.2.2 (fun _ => []) 4 (by decide)).2.1 KVS_MAX_SNAPSHOTS
     (by decide) (by decide)⟩

/-- C3: after a successful flush of a well-formed live map, generation 0
holds exactly the encoded live map, and reopening (with either
requiredness flag) reloads a live map equal to the one flushed. -/
theorem flush_then_open (live : List (String × KvsValue)) (d : Disk)
    (hwf : wf_value_fields live = true) :
    (flush live d).slots 0 = some (kvsmap_to_doc live) ∧
    (∀ need, open_kvs (flush live d) need = Except.ok live) := by
  have hslot : (flush live d).slots 0 = some (kvsmap_to_doc live) := rfl
  refine ⟨hslot, ?_⟩
  intro need
  simp only [open_kvs, hslot, doc_to_kvsmap, kvsmap_to_doc]
  exact (rt_aux (sizeOf live)).2.2 live le_rfl hwf

/-- Closed instance of `flush_then_open` on the basic put-get scenario of
the spec: flushing a single i32 entry and reopening returns it. -/
theorem flush_then_open_witness :
    wf_value_fields [("n", KvsValue.I32 7)] = true ∧
    open_kvs (flush [("n", KvsValue.I32 7)] empty_disk) OpenJsonNeedFile.Required =
      Except.ok [("n", KvsValue.I32 7)] :=
  ⟨by decide,
   (flush_then_open [("n", KvsValue.I32 7)] empty_disk (by decide)).2
     OpenJsonNeedFile.Required⟩

/-- C6: `snapshot_restore` rejects every id outside
`0 < id ≤ snapshot_count()` with `InvalidSnapshotId`, in particular id 0
and `KVS_MAX_SNAPSHOTS + 1`; a valid id loads the snapshot through the
Required-mode loader and replaces the live map, while the default layer
and the on-disk generations (so in particular every snapshot file) stay
untouched. -/
theorem snapshot_restore_spec :
    (∀ (s : KvsState) (id : Nat), ¬(0 < id ∧ id ≤ snapshot_count s.disk) →
      snapshot_restore s id = Except.error MyErrorCode.InvalidSnapshotId) ∧
    (∀ s : KvsState,
      snapshot_restore s 0 = Except.error MyErrorCode.InvalidSnapshotId) ∧
    (∀ s : KvsState, snapshot_restore s (KVS_MAX_SNAPSHOTS + 1) =
      Except.error MyErrorCode.InvalidSnapshotId) ∧
    (∀ (s : KvsState) (id : Nat), 0 < id → id ≤ snapshot_count s.disk →
      snapshot_restore s id =
        Except.map (fun m => { s with kvs := m }) (open_snapshot s.disk id)) ∧
    (∀ (s s2 : KvsState) (id : Nat), snapshot_restore s id = Except.ok s2 →
      s2.default_values = s.default_values ∧ s2.disk = s.disk ∧
      open_snapshot s.disk id = Except.ok s2.kvs) := by
  have hinv : ∀ (s : KvsState) (id : Nat), ¬(0 < id ∧ id ≤ snapshot_count s.disk) →
      snapshot_restore s id = Except.error MyErrorCode.InvalidSnapshotId := by
    intro s id h
    rw [snapshot_restore, if_pos (by omega)]
  have hvalid : ∀ (s : KvsState) (id : Nat), 0 < id → id ≤ snapshot_count s.disk →
      snapshot_restore s id =
        Except.map (fun m => { s with kvs := m }) (open_snapshot s.disk id) := by
    intro s id h1 h2
    rw [snapshot_restore, if_neg (by omega)]
  refine ⟨hinv, ?_, ?_, hvalid, ?_⟩
  · intro s
    exact hinv s 0 (by omega)
  · intro s
    have hle := count_go_le s.disk KVS_MAX_SNAPSHOTS 1
    exact hinv s (KVS_MAX_SNAPSHOTS + 1) (by
      rw [snapshot_count] at *
      omega)
  · intro s s2 id h
    by_cases hid : 0 < id ∧ id ≤ snapshot_count s.disk
    · rw [hvalid s id hid.1 hid.2] at h
      cases hos : open_snapshot s.disk id with
      | error e =>
          rw [hos] at h
          exact Except.noConfusion h
      | ok m =>
          rw [hos] at h
          injection h with h2
          subst h2
          exact ⟨rfl, rfl, rfl⟩
    · rw [hinv s id hid] at h
      exact Except.noConfusion h

/-- Closed instance of `snapshot_restore_spec` mirroring the
`kvs_snapshot_restore` tests: on a disk with exactly one snapshot, ids 0
and 4 are rejected, and restoring snapshot 1 replaces the live map with
the decoded snapshot while keeping the defaults. -/
theorem snapshot_restore_spec_witness :
    snapshot_restore
      ⟨⟨fun j => if j = 1 then some (kvsmap_to_doc [("kvs_old", KvsValue.I32 42)])
        else none⟩, [("kvs", KvsValue.I32 2)], [("d", KvsValue.Boolean true)]⟩ 0 =
      Except.error MyErrorCode.InvalidSnapshotId ∧
    snapshot_restore
      ⟨⟨fun j => if j = 1 then some (kvsmap_to_doc [("kvs_old", KvsValue.I32 42)])
        else none⟩, [("kvs", KvsValue.I32 2)], [("d", KvsValue.Boolean true)]⟩
      (KVS_MAX_SNAPSHOTS + 1) = Except.error MyErrorCode.InvalidSnapshotId ∧
    snapshot_restore
      ⟨⟨fun j => if j = 1 then some (kvsmap_to_doc [("kvs_old", KvsValue.I32 42)])
        else none⟩, [("kvs", KvsValue.I32 2)], [("d", KvsValue.Boolean true)]⟩ 1 =
      Except.map (fun m =>
        ⟨⟨fun j => if j = 1 then some (kvsmap_to_doc [("kvs_old", KvsValue.I32 42)])
          else none⟩, m, [("d", KvsValue.Boolean true)]⟩)
        (open_snapshot
          ⟨fun j => if j = 1 then some (kvsmap_to_doc [("kvs_old", KvsValue.I32 42)])
            else none⟩ 1) :=
  ⟨snapshot_restore_spec.2.1 _,
   snapshot_restore_spec.2.2.1 _,
   snapshot_restore_spec.2.2.2.1 _ 1 (by decide) (by decide)⟩
